import Mathlib

/-!
Verification of the climatological estimator (`src/climatological_analyzer.py`).

The analyzer's floating-point observations are modelled as rationals; the
entries of the raw input array, which may be NaN or infinite, are modelled by
`FloatVal`.  Python functions that can raise are embedded as `Except String`
valued functions; `float('inf')` results are modelled by `ExtFloat.inf`.
External library routines (scipy quantile functions, the real logarithm and
square root) are kept as explicit function parameters, since their outputs
leave the rationals.
-/

deriving instance DecidableEq for Except

namespace Climatological

/-- A Python float that may be non-finite: the raw entries handed to
`ClimatologicalAnalyzer.__init__`. -/
inductive FloatVal where
  | num : ℚ → FloatVal
  | nan : FloatVal
  | posInf : FloatVal
  | negInf : FloatVal
deriving DecidableEq, Repr

/-- Model of `np.isnan` on one entry. -/
def FloatVal.isnan : FloatVal → Bool
  | FloatVal.nan => true
  | _ => false

/-- Model of `np.isfinite` on one entry (spec notion: "a finite number"). -/
def FloatVal.isFinite : FloatVal → Bool
  | FloatVal.num _ => true
  | _ => false

/-- The cleaning step of `__init__`: `self.data = self.data[~np.isnan(self.data)]`,
which removes exactly the NaN entries. -/
def cleanSample (raw : List FloatVal) : List FloatVal :=
  raw.filter (fun x => ! x.isnan)

/-- Model of `ClimatologicalAnalyzer.__init__`: clean the sample, raise
`ValueError` when no data points remain, and otherwise return the cleaned
data together with the low-confidence-warning flag (`n < 10`). -/
def analyzerInit (raw : List FloatVal) : Except String (List FloatVal × Bool) :=
  let d := cleanSample raw
  if d.length = 0 then
    Except.error "No valid data points provided"
  else
    Except.ok (d, decide (d.length < 10))

/-- A finite rational or `float('inf')`. -/
inductive ExtFloat where
  | fin : ℚ → ExtFloat
  | inf : ExtFloat
deriving DecidableEq, Repr

/-- Model of `ClimatologicalAnalyzer.calculate_probability`: count the
strictly exceeding (resp. strictly below) observations and divide by `n`;
any other condition string raises `ValueError`. -/
def calculate_probability (data : List ℚ) (threshold : ℚ) (condition : String) :
    Except String ℚ :=
  if condition = "exceeds" then
    Except.ok ((data.countP (fun x => decide (threshold < x)) : ℚ) / (data.length : ℚ))
  else if condition = "below" then
    Except.ok ((data.countP (fun x => decide (x < threshold)) : ℚ) / (data.length : ℚ))
  else
    Except.error "Condition must be exceeds or below"

/-- Model of `ClimatologicalAnalyzer.get_comfortable_probability`: the count
of observations in the closed interval, divided by `n`. -/
def get_comfortable_probability (data : List ℚ) (min_comfortable max_comfortable : ℚ) : ℚ :=
  (data.countP (fun x => decide (min_comfortable ≤ x) && decide (x ≤ max_comfortable)) : ℚ) /
    (data.length : ℚ)

/-- Model of `ClimatologicalAnalyzer.calculate_return_period`: reciprocal of the
probability, `float('inf')` when the probability is zero, and the `ValueError`
of `calculate_probability` propagates. -/
def calculate_return_period (data : List ℚ) (threshold : ℚ) (condition : String) :
    Except String ExtFloat :=
  match calculate_probability data threshold condition with
  | Except.error e => Except.error e
  | Except.ok p => if p = 0 then Except.ok ExtFloat.inf else Except.ok (ExtFloat.fin (1 / p))

/-- On every list, the elements strictly above `t`, strictly below `t`, and
equal to `t` partition the list, so the three counts add up to the length. -/
lemma countP_trichotomy (data : List ℚ) (t : ℚ) :
    data.countP (fun x => decide (t < x)) + data.countP (fun x => decide (x < t)) +
      data.countP (fun x => decide (x = t)) = data.length := by
  induction data with
  | nil => simp
  | cons a l ih =>
    simp only [List.countP_cons, List.length_cons]
    rcases lt_trichotomy t a with h | h | h
    · have h1 : (decide (t < a)) = true := by simpa using h
      have h2 : (decide (a < t)) = false := by simp [not_lt.mpr (le_of_lt h)]
      have h3 : (decide (a = t)) = false := by simp [ne_of_gt h]
      rw [h1, h2, h3]
      norm_num
      omega
    · have h1 : (decide (t < a)) = false := by simp [h]
      have h2 : (decide (a < t)) = false := by simp [h]
      have h3 : (decide (a = t)) = true := by simp [h]
      rw [h1, h2, h3]
      norm_num
      omega
    · have h1 : (decide (t < a)) = false := by simp [not_lt.mpr (le_of_lt h)]
      have h2 : (decide (a < t)) = true := by simpa using h
      have h3 : (decide (a = t)) = false := by simp [ne_of_lt h]
      rw [h1, h2, h3]
      norm_num
      omega

/-- C1.  On every non-empty cleaned sample, `probability(t, exceeds)` is the
count of observations strictly greater than `t` divided by `n`,
`probability(t, below)` is the count strictly less than `t` divided by `n`,
the two together with the fraction of ties at `t` sum to one (so ties are
counted in neither direction), and `comfortable_probability(lo, hi)` is the
fraction of observations in the closed interval `[lo, hi]`. -/
theorem spec_C1_probability_counts (data : List ℚ) (t lo hi : ℚ) (hd : data ≠ []) :
    calculate_probability data t "exceeds" =
      Except.ok ((data.countP (fun x => decide (t < x)) : ℚ) / (data.length : ℚ)) ∧
    calculate_probability data t "below" =
      Except.ok ((data.countP (fun x => decide (x < t)) : ℚ) / (data.length : ℚ)) ∧
    (data.countP (fun x => decide (t < x)) : ℚ) / (data.length : ℚ) +
      (data.countP (fun x => decide (x < t)) : ℚ) / (data.length : ℚ) +
      (data.countP (fun x => decide (x = t)) : ℚ) / (data.length : ℚ) = 1 ∧
    get_comfortable_probability data lo hi =
      (data.countP (fun x => decide (lo ≤ x ∧ x ≤ hi)) : ℚ) / (data.length : ℚ) := by
  have hpos : (0 : ℚ) < (data.length : ℚ) := by
    exact_mod_cast List.length_pos.mpr hd
  have hn : (data.length : ℚ) ≠ 0 := ne_of_gt hpos
  refine ⟨rfl, rfl, ?_, ?_⟩
  · have h := countP_trichotomy data t
    field_simp
    exact_mod_cast h
  · simp only [get_comfortable_probability]
    congr 2
    apply List.countP_congr
    intro x _
    by_cases hlo : lo ≤ x <;> by_cases hhi : x ≤ hi <;> simp [hlo, hhi]

/-- Witness for C1 at the concrete sample `[10, 20, 30, 40, 50]` with
threshold `25`. -/
theorem spec_C1_probability_counts_witness :
    calculate_probability [10, 20, 30, 40, 50] 25 "exceeds" =
      Except.ok ((([10, 20, 30, 40, 50] : List ℚ).countP (fun x => decide ((25 : ℚ) < x)) : ℚ) /
        (([10, 20, 30, 40, 50] : List ℚ).length : ℚ)) :=
  (spec_C1_probability_counts [10, 20, 30, 40, 50] 25 0 100 (by decide)).1

/-- C2.  Whenever `calculate_probability` returns a probability `p`: if `p` is
non-zero, the return period is the finite value `1 / p` and satisfies
`(1 / p) * p = 1`; if `p` is exactly zero, the return period is `+infinity`. -/
theorem spec_C2_return_period_reciprocal (data : List ℚ) (t : ℚ) (c : String) (p : ℚ)
    (hp : calculate_probability data t c = Except.ok p) :
    (p ≠ 0 → calculate_return_period data t c = Except.ok (ExtFloat.fin (1 / p)) ∧
      (1 / p) * p = 1) ∧
    (p = 0 → calculate_return_period data t c = Except.ok ExtFloat.inf) := by
  constructor
  · intro hne
    constructor
    · simp [calculate_return_period, hp, hne]
    · field_simp
  · intro h0
    simp [calculate_return_period, hp, h0]

/-- Witness for C2 at the concrete sample `[10, 20, 30, 40, 50]` with
threshold `25`, direction `exceeds`: the probability is `3/5` and the return
period is `5/3`. -/
theorem spec_C2_return_period_reciprocal_witness :
    calculate_return_period [10, 20, 30, 40, 50] 25 "exceeds" =
      Except.ok (ExtFloat.fin (1 / (3 / 5))) :=
  ((spec_C2_return_period_reciprocal [10, 20, 30, 40, 50] 25 "exceeds" (3 / 5)
    (by simp [calculate_probability, List.countP, List.countP.go]; norm_num)).1
    (by norm_num)).1

/-- C10.  For every direction string other than `exceeds` and `below`,
`calculate_probability` raises the `ValueError` about the allowed conditions
instead of returning a probability, and `calculate_return_period` propagates
the same error. -/
theorem spec_C10_invalid_condition_raises (data : List ℚ) (t : ℚ) (c : String)
    (h1 : c ≠ "exceeds") (h2 : c ≠ "below") :
    calculate_probability data t c = Except.error "Condition must be exceeds or below" ∧
    calculate_return_period data t c = Except.error "Condition must be exceeds or below" := by
  have hp : calculate_probability data t c =
      Except.error "Condition must be exceeds or below" := by
    simp [calculate_probability, h1, h2]
  exact ⟨hp, by simp [calculate_return_period, hp]⟩

/-- Witness for C10 at the concrete direction string `between`. -/
theorem spec_C10_invalid_condition_raises_witness :
    calculate_probability [1] 0 "between" =
      Except.error "Condition must be exceeds or below" :=
  (spec_C10_invalid_condition_raises [1] 0 "between" (by decide) (by decide)).1

/-- C4 counterexample.  The cleaning step keeps `float('inf')`: on the raw
input `[inf]` the retained sample is `[inf]`, which is not a finite number,
and construction succeeds (with the low-confidence warning) although the
sample contains no finite observation.  This refutes the claim that every
non-finite entry is removed and that construction fails exactly when no
finite observations remain. -/
theorem spec_C4_counterexample :
    cleanSample [FloatVal.posInf] = [FloatVal.posInf] ∧
    FloatVal.isFinite FloatVal.posInf = false ∧
    analyzerInit [FloatVal.posInf] = Except.ok ([FloatVal.posInf], true) := by
  decide

/-- C4 (amended).  Sample preparation drops exactly the NaN entries
(infinite entries are retained); construction fails with the invalid-input
error if and only if the NaN-cleaned sample is empty; on success the stored
data is the NaN-cleaned sample — independent of the warning flag — and the
low-confidence warning is emitted exactly when `n < 10`. -/
theorem spec_C4_nan_cleaning (raw : List FloatVal) :
    (∀ x ∈ cleanSample raw, x ≠ FloatVal.nan) ∧
    (analyzerInit raw = Except.error "No valid data points provided" ↔
      cleanSample raw = []) ∧
    (∀ d w, analyzerInit raw = Except.ok (d, w) →
      d = cleanSample raw ∧ (w = true ↔ d.length < 10) ∧ d ≠ []) := by
  refine ⟨?_, ?_, ?_⟩
  · intro x hx
    have hmem := List.of_mem_filter hx
    cases x <;> simp_all [FloatVal.isnan]
  · by_cases h : (cleanSample raw).length = 0
    · have he : cleanSample raw = [] := List.length_eq_zero.mp h
      simp [analyzerInit, h, he]
    · have hne : cleanSample raw ≠ [] := by
        intro he
        exact h (by simp [he])
      simp [analyzerInit, h, hne]
  · intro d w heq
    by_cases h : (cleanSample raw).length = 0
    · simp [analyzerInit, h] at heq
    · simp only [analyzerInit, h, if_neg, if_false] at heq
      obtain ⟨hd, hw⟩ := Prod.mk.inj (Except.ok.inj heq)
      subst hd
      refine ⟨rfl, ?_, ?_⟩
      · rw [← hw]
        simp
      · intro he
        exact h (by simp [he])

/-- Witness for C4 (amended): the all-NaN raw input `[nan]` cleans to the
empty sample and construction fails with the invalid-input error. -/
theorem spec_C4_nan_cleaning_witness :
    analyzerInit [FloatVal.nan] = Except.error "No valid data points provided" :=
  (spec_C4_nan_cleaning [FloatVal.nan]).2.1.mpr (by decide)

/-- Comparison of an `ExtFloat` coefficient of variation against a finite
band edge: `float('inf')` compares greater than every finite bound. -/
def ExtFloat.ltBound : ExtFloat → ℚ → Bool
  | ExtFloat.fin v, b => decide (v < b)
  | ExtFloat.inf, _ => false

/-- The coefficient of variation of `_categorize_risk`:
`std_dev / abs(mean) if mean != 0 else float('inf')`. -/
def cv_of (mean std_dev : ℚ) : ExtFloat :=
  if mean ≠ 0 then ExtFloat.fin (std_dev / |mean|) else ExtFloat.inf

/-- Model of `ClimatologicalAnalyzer._categorize_risk`: the basic statistics
`(mean, std_dev)` may be missing (`none`), which models the `except` branch
returning `Unknown`; otherwise the coefficient of variation is mapped
top-down through the bands `0.1`, `0.3`, `0.5`. -/
def categorize_risk (basic_stats : Option (ℚ × ℚ)) : String :=
  match basic_stats with
  | none => "Unknown"
  | some (mean, std_dev) =>
    let cv := cv_of mean std_dev
    if cv.ltBound (1 / 10) then "Low"
    else if cv.ltBound (3 / 10) then "Moderate"
    else if cv.ltBound (1 / 2) then "High"
    else "Very High"

/-- Linear interpolation between order statistics at fractional index `h`:
`s[i] + (h - i) * (s[i + 1] - s[i])` with `i = floor(h)`, where the upper
order statistic falls back to the lower one when `i + 1` is out of range
(which only happens at `h = n - 1`, where the fraction is zero). -/
def interp (s : List ℚ) (h : ℚ) : ℚ :=
  s.getD (⌊h⌋.toNat) 0 +
    (h - ((⌊h⌋.toNat : ℕ) : ℚ)) *
      (s.getD (⌊h⌋.toNat + 1) (s.getD (⌊h⌋.toNat) 0) - s.getD (⌊h⌋.toNat) 0)

/-- Model of `np.percentile(data, q)` with the default linear interpolation:
sort the data and interpolate at the fractional index `(n - 1) * q / 100`. -/
def np_percentile (d : List ℚ) (q : ℚ) : ℚ :=
  interp (List.insertionSort (· ≤ ·) d) (((d.length : ℚ) - 1) * q / 100)

/-- The percentile table of `ClimatologicalAnalyzer.get_percentiles`. -/
structure Percentiles where
  p10 : ℚ
  p25 : ℚ
  p50 : ℚ
  p75 : ℚ
  p90 : ℚ
  p95 : ℚ
  p99 : ℚ
deriving DecidableEq, Repr

/-- Model of `ClimatologicalAnalyzer.get_percentiles`: the fixed ranks
10, 25, 50, 75, 90, 95, 99. -/
def get_percentiles (d : List ℚ) : Percentiles :=
  { p10 := np_percentile d 10
    p25 := np_percentile d 25
    p50 := np_percentile d 50
    p75 := np_percentile d 75
    p90 := np_percentile d 90
    p95 := np_percentile d 95
    p99 := np_percentile d 99 }

/-- The natural cast of `toNat` of the floor of a nonnegative rational is the
floor itself. -/
lemma toNat_floor_cast {h : ℚ} (h0 : 0 ≤ h) :
    ((⌊h⌋.toNat : ℕ) : ℚ) = ((⌊h⌋ : ℤ) : ℚ) := by
  exact_mod_cast Int.toNat_of_nonneg (Int.floor_nonneg.mpr h0)

/-- The fractional part used by `interp` is nonnegative. -/
lemma frac_nonneg {h : ℚ} (h0 : 0 ≤ h) : 0 ≤ h - ((⌊h⌋.toNat : ℕ) : ℚ) := by
  rw [toNat_floor_cast h0]
  linarith [Int.floor_le h]

/-- The fractional part used by `interp` is below one. -/
lemma frac_lt_one {h : ℚ} (h0 : 0 ≤ h) : h - ((⌊h⌋.toNat : ℕ) : ℚ) < 1 := by
  rw [toNat_floor_cast h0]
  linarith [Int.lt_floor_add_one h]

/-- `getD` does not depend on the default inside the bounds of the list. -/
lemma getD_default_irrel {s : List ℚ} {k : ℕ} (hk : k < s.length) (d1 d2 : ℚ) :
    s.getD k d1 = s.getD k d2 := by
  rw [List.getD_eq_getElem s d1 hk, List.getD_eq_getElem s d2 hk]

/-- In a sorted list, `getD` with default `0` is monotone on in-bounds
indices. -/
lemma sorted_getD_mono {s : List ℚ} (hs : List.Sorted (· ≤ ·) s) {i j : ℕ}
    (hij : i ≤ j) (hj : j < s.length) : s.getD i 0 ≤ s.getD j 0 := by
  have hi : i < s.length := lt_of_le_of_lt hij hj
  rw [List.getD_eq_getElem s 0 hi, List.getD_eq_getElem s 0 hj]
  have h := List.Sorted.rel_get_of_le hs
    (show (⟨i, hi⟩ : Fin s.length) ≤ ⟨j, hj⟩ from hij)
  simpa using h

/-- In a sorted list, the upper order statistic used by `interp` is at least
the lower one. -/
lemma hi_ge_lo {s : List ℚ} (hs : List.Sorted (· ≤ ·) s) {i : ℕ}
    (_hi : i < s.length) : s.getD i 0 ≤ s.getD (i + 1) (s.getD i 0) := by
  by_cases hc : i + 1 < s.length
  · rw [getD_default_irrel hc (s.getD i 0) 0]
    exact sorted_getD_mono hs (Nat.le_succ i) hc
  · rw [List.getD_eq_default s _ (Nat.le_of_not_lt hc)]

/-- Piecewise-linear interpolation over a sorted list is monotone in the
fractional index. -/
lemma interp_mono {s : List ℚ} (hs : List.Sorted (· ≤ ·) s) {h1 h2 : ℚ}
    (h0 : 0 ≤ h1) (h12 : h1 ≤ h2) (hub : h2 ≤ (s.length : ℚ) - 1) :
    interp s h1 ≤ interp s h2 := by
  have h02 : 0 ≤ h2 := le_trans h0 h12
  have hfl2 : ⌊h2⌋ ≤ (s.length : ℤ) - 1 := by
    have hcast : h2 ≤ (((s.length : ℤ) - 1 : ℤ) : ℚ) := by push_cast; linarith
    have := Int.floor_le_floor hcast
    simpa using this
  have h2f : (0 : ℤ) ≤ ⌊h2⌋ := Int.floor_nonneg.mpr h02
  have hi2lt : ⌊h2⌋.toNat < s.length := by omega
  have hile : ⌊h1⌋.toNat ≤ ⌊h2⌋.toNat := Int.toNat_le_toNat (Int.floor_le_floor h12)
  have hi1lt : ⌊h1⌋.toNat < s.length := lt_of_le_of_lt hile hi2lt
  rcases eq_or_lt_of_le hile with heq | hlt
  · have hglo := hi_ge_lo hs hi1lt
    simp only [interp]
    rw [← heq]
    nlinarith [mul_nonneg (sub_nonneg.mpr h12) (sub_nonneg.mpr hglo)]
  · have hglo1 := hi_ge_lo hs hi1lt
    have hglo2 := hi_ge_lo hs hi2lt
    have hfrac1 : h1 - ((⌊h1⌋.toNat : ℕ) : ℚ) ≤ 1 := le_of_lt (frac_lt_one h0)
    have hfrac1' := frac_nonneg h0
    have hfrac2' := frac_nonneg h02
    have step1 : interp s h1 ≤ s.getD (⌊h1⌋.toNat + 1) (s.getD (⌊h1⌋.toNat) 0) := by
      simp only [interp]
      nlinarith [mul_le_mul_of_nonneg_right hfrac1 (sub_nonneg.mpr hglo1)]
    have hi1in : ⌊h1⌋.toNat + 1 < s.length :=
      lt_of_le_of_lt (Nat.succ_le_of_lt hlt) hi2lt
    have step2 : s.getD (⌊h1⌋.toNat + 1) (s.getD (⌊h1⌋.toNat) 0) =
        s.getD (⌊h1⌋.toNat + 1) 0 := getD_default_irrel hi1in _ _
    have step3 : s.getD (⌊h1⌋.toNat + 1) 0 ≤ s.getD (⌊h2⌋.toNat) 0 :=
      sorted_getD_mono hs (Nat.succ_le_of_lt hlt) hi2lt
    have step4 : s.getD (⌊h2⌋.toNat) 0 ≤ interp s h2 := by
      simp only [interp]
      nlinarith [mul_nonneg hfrac2' (sub_nonneg.mpr hglo2)]
    linarith [step1, step2 ▸ step3, step4]

/-- `np.percentile` is monotone in the rank on every non-empty sample. -/
lemma np_percentile_mono (d : List ℚ) (hd : d ≠ []) {q1 q2 : ℚ}
    (hq0 : 0 ≤ q1) (hq : q1 ≤ q2) (hq2 : q2 ≤ 100) :
    np_percentile d q1 ≤ np_percentile d q2 := by
  have hs : List.Sorted (· ≤ ·) (List.insertionSort (· ≤ ·) d) :=
    List.sorted_insertionSort (· ≤ ·) d
  have hlen : (List.insertionSort (· ≤ ·) d).length = d.length :=
    List.length_insertionSort (· ≤ ·) d
  have hn : 1 ≤ d.length := List.length_pos.mpr hd
  have hn' : (1 : ℚ) ≤ (d.length : ℚ) := by exact_mod_cast hn
  have hnn : (0 : ℚ) ≤ (d.length : ℚ) - 1 := by linarith
  apply interp_mono hs
  · positivity
  · gcongr
  · rw [hlen]
    have hmul : ((d.length : ℚ) - 1) * q2 ≤ ((d.length : ℚ) - 1) * 100 := by
      exact mul_le_mul_of_nonneg_left hq2 hnn
    linarith

/-- C3.  On every non-empty cleaned sample, the percentile table (each entry
the linear-interpolation percentile of the sample at its rank) is
monotonically non-decreasing in rank: p10 ≤ p25 ≤ p50 ≤ p75 ≤ p90 ≤ p95 ≤ p99. -/
theorem spec_C3_percentiles_monotone (d : List ℚ) (hd : d ≠ []) :
    (get_percentiles d).p10 ≤ (get_percentiles d).p25 ∧
    (get_percentiles d).p25 ≤ (get_percentiles d).p50 ∧
    (get_percentiles d).p50 ≤ (get_percentiles d).p75 ∧
    (get_percentiles d).p75 ≤ (get_percentiles d).p90 ∧
    (get_percentiles d).p90 ≤ (get_percentiles d).p95 ∧
    (get_percentiles d).p95 ≤ (get_percentiles d).p99 :=
  ⟨np_percentile_mono d hd (by norm_num) (by norm_num) (by norm_num),
   np_percentile_mono d hd (by norm_num) (by norm_num) (by norm_num),
   np_percentile_mono d hd (by norm_num) (by norm_num) (by norm_num),
   np_percentile_mono d hd (by norm_num) (by norm_num) (by norm_num),
   np_percentile_mono d hd (by norm_num) (by norm_num) (by norm_num),
   np_percentile_mono d hd (by norm_num) (by norm_num) (by norm_num)⟩

/-- Witness for C3 at the concrete sample `[10, 20, 30, 40, 50]`. -/
theorem spec_C3_percentiles_monotone_witness :
    (get_percentiles [10, 20, 30, 40, 50]).p10 ≤ (get_percentiles [10, 20, 30, 40, 50]).p25 :=
  (spec_C3_percentiles_monotone [10, 20, 30, 40, 50] (by decide)).1

/-- C5.  Risk categorization maps `cv = std_dev / |mean|` through upper-
inclusive bands: `cv < 0.1` gives Low, `0.1 ≤ cv < 0.3` gives Moderate,
`0.3 ≤ cv < 0.5` gives High, and `0.5 ≤ cv` gives Very High; when
`mean = 0` the coefficient is `+infinity` and the category is Very High;
when the statistics cannot be computed the category is Unknown. -/
theorem spec_C5_risk_bands (mean std_dev : ℚ) :
    (mean = 0 → categorize_risk (some (mean, std_dev)) = "Very High") ∧
    (mean ≠ 0 →
      (std_dev / |mean| < 1 / 10 → categorize_risk (some (mean, std_dev)) = "Low") ∧
      (1 / 10 ≤ std_dev / |mean| → std_dev / |mean| < 3 / 10 →
        categorize_risk (some (mean, std_dev)) = "Moderate") ∧
      (3 / 10 ≤ std_dev / |mean| → std_dev / |mean| < 1 / 2 →
        categorize_risk (some (mean, std_dev)) = "High") ∧
      (1 / 2 ≤ std_dev / |mean| → categorize_risk (some (mean, std_dev)) = "Very High")) ∧
    categorize_risk none = "Unknown" := by
  refine ⟨?_, ?_, rfl⟩
  · intro h0
    have h0' : ¬ mean ≠ 0 := not_not.mpr h0
    simp only [categorize_risk, cv_of, if_neg h0', ExtFloat.ltBound]
    norm_num
  · intro hm
    have e : categorize_risk (some (mean, std_dev)) =
        (if std_dev / |mean| < 1 / 10 then "Low"
         else if std_dev / |mean| < 3 / 10 then "Moderate"
         else if std_dev / |mean| < 1 / 2 then "High" else "Very High") := by
      simp only [categorize_risk, cv_of, if_pos hm, ExtFloat.ltBound, decide_eq_true_eq]
    refine ⟨?_, ?_, ?_, ?_⟩
    · intro h
      rw [e, if_pos h]
    · intro h1 h2
      rw [e, if_neg (not_lt.mpr h1), if_pos h2]
    · intro h1 h2
      have h1' : ¬ std_dev / |mean| < 1 / 10 :=
        not_lt.mpr (le_trans (by norm_num) h1)
      rw [e, if_neg h1', if_neg (not_lt.mpr h1), if_pos h2]
    · intro h1
      have ha : ¬ std_dev / |mean| < 1 / 10 :=
        not_lt.mpr (le_trans (by norm_num) h1)
      have hb : ¬ std_dev / |mean| < 3 / 10 :=
        not_lt.mpr (le_trans (by norm_num) h1)
      rw [e, if_neg ha, if_neg hb, if_neg (not_lt.mpr h1)]

/-- Witness for C5 at the exact boundary `cv = 0.1`: mean `1` and standard
deviation `1/10` classify as Moderate, not Low. -/
theorem spec_C5_risk_bands_witness :
    categorize_risk (some ((1 : ℚ), 1 / 10)) = "Moderate" :=
  ((spec_C5_risk_bands 1 (1 / 10)).2.1 (by norm_num)).2.1
    (by rw [abs_one, div_one]) (by rw [abs_one, div_one]; norm_num)

/-- The quintuple returned by `scipy.stats.linregress`. -/
structure LinregResult where
  slope : ℚ
  intercept : ℚ
  r_value : ℚ
  p_value : ℚ
  std_err : ℚ
deriving DecidableEq, Repr

/-- The record returned by `ClimatologicalAnalyzer.detect_trend`.  Optional
fields model dictionary keys that are absent from the reduced record of the
failure branch. -/
structure TrendRecord where
  slope : ℚ
  intercept : Option ℚ
  r_value : Option ℚ
  p_value : ℚ
  std_err : Option ℚ
  significant : Bool
  direction : String
  trend_strength : Option ℚ
  error : Option String
deriving DecidableEq, Repr

/-- Model of `ClimatologicalAnalyzer.detect_trend`.  The `scipy.stats.linregress`
call is passed in as an `Except` value: `Except.error e` models the regression
raising an exception with message `e`, which the `except` branch of the source
turns into the reduced no-trend record. -/
def detect_trend (linregress : Except String LinregResult) : TrendRecord :=
  match linregress with
  | Except.ok r =>
    { slope := r.slope
      intercept := some r.intercept
      r_value := some r.r_value
      p_value := r.p_value
      std_err := some r.std_err
      significant := decide (r.p_value < 1 / 20)
      direction := if 0 < r.slope then "increasing" else "decreasing"
      trend_strength := some |r.r_value|
      error := none }
  | Except.error e =>
    { slope := 0
      intercept := none
      r_value := none
      p_value := 1
      std_err := none
      significant := false
      direction := "no trend"
      trend_strength := none
      error := some e }

/-- The part of the `generate_risk_assessment` record the claims are about.
The standard deviation `np.std(self.data)` involves a square root, so it is
supplied as a parameter together with the modelled regression outcome. -/
structure RiskAssessment where
  mean : ℚ
  median : ℚ
  std_dev : ℚ
  data_years : ℕ
  percentiles : Percentiles
  trend_analysis : TrendRecord
  risk_category : String
deriving DecidableEq, Repr

/-- Model of `np.mean`. -/
def sample_mean (d : List ℚ) : ℚ := d.sum / (d.length : ℚ)

/-- Model of `ClimatologicalAnalyzer.generate_risk_assessment` restricted to
the fields the claims mention: basic statistics, percentiles, the trend
analysis, and the risk category built from mean and standard deviation. -/
def generate_risk_assessment (d : List ℚ) (std_dev : ℚ)
    (linregress : Except String LinregResult) : RiskAssessment :=
  { mean := sample_mean d
    median := np_percentile d 50
    std_dev := std_dev
    data_years := d.length
    percentiles := get_percentiles d
    trend_analysis := detect_trend linregress
    risk_category := categorize_risk (some (sample_mean d, std_dev)) }

/-- C7.  When the regression raises (degenerate input such as `n < 2` or a
zero-variance sample), `detect_trend` does not propagate the exception: it
returns the reduced record with slope 0, p-value 1, significant false,
direction "no trend" and a non-empty error description, and the surrounding
assessment still computes all its other fields. -/
theorem spec_C7_trend_degrades_gracefully (d : List ℚ) (std_dev : ℚ) (e : String)
    (he : e ≠ "") :
    (generate_risk_assessment d std_dev (Except.error e)).trend_analysis =
      { slope := 0, intercept := none, r_value := none, p_value := 1,
        std_err := none, significant := false, direction := "no trend",
        trend_strength := none, error := some e } ∧
    (generate_risk_assessment d std_dev (Except.error e)).trend_analysis.error = some e ∧
    e ≠ "" ∧
    (generate_risk_assessment d std_dev (Except.error e)).percentiles = get_percentiles d ∧
    (generate_risk_assessment d std_dev (Except.error e)).risk_category =
      categorize_risk (some (sample_mean d, std_dev)) ∧
    (generate_risk_assessment d std_dev (Except.error e)).data_years = d.length :=
  ⟨rfl, rfl, he, rfl, rfl, rfl⟩

/-- Witness for C7 at the concrete failure message raised by a constant
sample. -/
theorem spec_C7_trend_degrades_gracefully_witness :
    (generate_risk_assessment [20, 20, 20] 0
      (Except.error "x and y have zero variance")).trend_analysis.error =
      some "x and y have zero variance" :=
  (spec_C7_trend_degrades_gracefully [20, 20, 20] 0 "x and y have zero variance"
    (by decide)).2.1

/-- C8.  When the regression succeeds, the trend record flags significance
exactly when the p-value is below the fixed level 0.05, reports direction
"increasing" when the slope is positive and "decreasing" otherwise — so a
zero slope reports "decreasing" — and its trend strength is the absolute
value of the correlation coefficient. -/
theorem spec_C8_trend_success_fields (r : LinregResult) :
    ((detect_trend (Except.ok r)).significant = true ↔ r.p_value < 1 / 20) ∧
    (detect_trend (Except.ok r)).direction =
      (if 0 < r.slope then "increasing" else "decreasing") ∧
    (r.slope = 0 → (detect_trend (Except.ok r)).direction = "decreasing") ∧
    (detect_trend (Except.ok r)).trend_strength = some |r.r_value| := by
  refine ⟨?_, rfl, ?_, rfl⟩
  · simp [detect_trend]
  · intro h0
    simp [detect_trend, h0]

/-- Witness for C8: a regression with zero slope reports direction
"decreasing". -/
theorem spec_C8_trend_success_fields_witness :
    (detect_trend (Except.ok (LinregResult.mk 0 1 0 1 0))).direction = "decreasing" :=
  (spec_C8_trend_success_fields (LinregResult.mk 0 1 0 1 0)).2.2.1 rfl

/-- Modelled from the spec: `scipy.stats.gumbel_r.ppf(p, mu, beta)` is the
Gumbel quantile `mu - beta * ln(-ln(p))`.  The real logarithm leaves the
rationals, so it is kept as an abstract function parameter `log`. -/
def gumbel_r_ppf (log : ℚ → ℚ) (p : ℚ) (mu beta : ℚ) : ℚ :=
  mu - beta * log (-(log p))

/-- The fixed return periods of `get_extreme_value_analysis`. -/
def return_periods : List ℕ := [2, 5, 10, 20, 50, 100]

/-- The return-value table of `get_extreme_value_analysis` on the success
path: for each period `T` the Gumbel quantile at probability `1 - 1/T`,
stored under the key `"{T}_year"`. -/
def return_values (log : ℚ → ℚ) (mu beta : ℚ) : List (String × ℚ) :=
  return_periods.map
    (fun period => (toString period ++ "_year", gumbel_r_ppf log (1 - 1 / (period : ℚ)) mu beta))

/-- C9.  Whenever the Gumbel fit succeeds with location `mu` and scale `beta`,
the extreme-value table holds, for each `T` in {2, 5, 10, 20, 50, 100}, the
value `mu - beta * ln(-ln(1 - 1/T))` under the key `"T_year"`. -/
theorem spec_C9_gumbel_return_values (log : ℚ → ℚ) (mu beta : ℚ) :
    return_values log mu beta =
      [("2_year", mu - beta * log (-(log (1 / 2)))),
       ("5_year", mu - beta * log (-(log (4 / 5)))),
       ("10_year", mu - beta * log (-(log (9 / 10)))),
       ("20_year", mu - beta * log (-(log (19 / 20)))),
       ("50_year", mu - beta * log (-(log (49 / 50)))),
       ("100_year", mu - beta * log (-(log (99 / 100))))] := by
  simp only [return_values, return_periods, List.map_cons, List.map_nil, gumbel_r_ppf]
  norm_num
  refine ⟨rfl, rfl, rfl, rfl, rfl, rfl⟩

/-- Model of the Bessel-corrected sample variance underlying
`stats.sem(self.data)` (scipy's standard error of the mean uses `ddof = 1`). -/
def sample_variance (d : List ℚ) : ℚ :=
  ((d.map (fun x => (x - sample_mean d) ^ 2)).sum) / ((d.length : ℚ) - 1)

/-- Model of the critical-value choice of `confidence_interval`:
`t.ppf(1 - alpha/2, n - 1)` for `n < 30`, `norm.ppf(1 - alpha/2)` otherwise.
Modelled from the spec: the scipy quantile functions `t.ppf` and `norm.ppf`
are external library code kept as abstract parameters `tPpf` and `normPpf`. -/
def critical_value (tPpf : ℚ → ℕ → ℚ) (normPpf : ℚ → ℚ) (n : ℕ)
    (confidence_level : ℚ) : ℚ :=
  if n < 30 then tPpf (1 - (1 - confidence_level) / 2) (n - 1)
  else normPpf (1 - (1 - confidence_level) / 2)

/-- Model of `ClimatologicalAnalyzer.confidence_interval`: the pair
`(mean - margin, mean + margin)` with `margin = critical_value * std_err`.
The standard error `stats.sem(self.data)` involves a square root, so it is
supplied as the parameter `std_err`, characterized in the theorem by
`std_err ^ 2 = sample_variance / n`. -/
def confidence_interval (tPpf : ℚ → ℕ → ℚ) (normPpf : ℚ → ℚ) (d : List ℚ)
    (std_err : ℚ) (confidence_level : ℚ) : ℚ × ℚ :=
  (sample_mean d - critical_value tPpf normPpf d.length confidence_level * std_err,
   sample_mean d + critical_value tPpf normPpf d.length confidence_level * std_err)

/-- C6.  For every cleaned sample and confidence level `c` in `(0,1)`, with
`std_err` the nonnegative square root of `sample_variance / n` (the
Bessel-corrected standard deviation over `sqrt n`) and quantile functions
that are nonnegative above the median — as the Student t and standard normal
quantiles are — the interval is `(mean - margin, mean + margin)` with
`margin = critical_value * std_err`, the critical value is the Student t
quantile at `(1 + c)/2` with `n - 1` degrees of freedom when `n < 30` and
the standard normal quantile there when `n ≥ 30`, and the interval is
symmetric about the sample mean and contains it. -/
theorem spec_C6_confidence_interval (tPpf : ℚ → ℕ → ℚ) (normPpf : ℚ → ℚ)
    (d : List ℚ) (std_err c : ℚ) (hc0 : 0 < c) (hc1 : c < 1) (hse : 0 ≤ std_err)
    (hse2 : std_err ^ 2 = sample_variance d / (d.length : ℚ))
    (ht : ∀ p : ℚ, 1 / 2 < p → 0 ≤ tPpf p (d.length - 1))
    (hz : ∀ p : ℚ, 1 / 2 < p → 0 ≤ normPpf p) :
    (confidence_interval tPpf normPpf d std_err c).1 =
      sample_mean d - critical_value tPpf normPpf d.length c * std_err ∧
    (confidence_interval tPpf normPpf d std_err c).2 =
      sample_mean d + critical_value tPpf normPpf d.length c * std_err ∧
    (confidence_interval tPpf normPpf d std_err c).1 ≤ sample_mean d ∧
    sample_mean d ≤ (confidence_interval tPpf normPpf d std_err c).2 ∧
    sample_mean d - (confidence_interval tPpf normPpf d std_err c).1 =
      (confidence_interval tPpf normPpf d std_err c).2 - sample_mean d ∧
    (d.length < 30 →
      critical_value tPpf normPpf d.length c = tPpf ((1 + c) / 2) (d.length - 1)) ∧
    (30 ≤ d.length →
      critical_value tPpf normPpf d.length c = normPpf ((1 + c) / 2)) := by
  have hq : (1 : ℚ) / 2 < 1 - (1 - c) / 2 := by linarith
  have heq : 1 - (1 - c) / 2 = (1 + c) / 2 := by ring
  have hcrit : 0 ≤ critical_value tPpf normPpf d.length c := by
    unfold critical_value
    split_ifs with h
    · exact ht _ hq
    · exact hz _ hq
  have hmargin : 0 ≤ critical_value tPpf normPpf d.length c * std_err :=
    mul_nonneg hcrit hse
  have e1 : (confidence_interval tPpf normPpf d std_err c).1 =
      sample_mean d - critical_value tPpf normPpf d.length c * std_err := rfl
  have e2 : (confidence_interval tPpf normPpf d std_err c).2 =
      sample_mean d + critical_value tPpf normPpf d.length c * std_err := rfl
  refine ⟨rfl, rfl, by rw [e1]; linarith, by rw [e2]; linarith,
    by rw [e1, e2]; ring, ?_, ?_⟩
  · intro h
    unfold critical_value
    rw [if_pos h, heq]
  · intro h
    unfold critical_value
    rw [if_neg (Nat.not_lt.mpr h), heq]

/-- Witness for C6 at the sample `[1, 3]` with confidence level `1/2` and
constant quantile functions equal to `1`: the sample variance is `2`, so the
standard error is `1` and the interval's lower endpoint stays below the mean. -/
theorem spec_C6_confidence_interval_witness :
    (confidence_interval (fun _ _ => (1 : ℚ)) (fun _ => (1 : ℚ)) [1, 3] 1 (1 / 2)).1 ≤
      sample_mean [1, 3] :=
  (spec_C6_confidence_interval (fun _ _ => 1) (fun _ => 1) [1, 3] 1 (1 / 2)
    (by norm_num) (by norm_num) (by norm_num)
    (by norm_num [sample_variance, sample_mean])
    (fun _ _ => by norm_num) (fun _ _ => by norm_num)).2.2.1

end Climatological
